import Mathlib

/-!
Verification of the NetMind-RS-KnowledgeRAG retrieval and lifecycle layer.

The Python source is shallowly embedded: pure helpers become Lean functions,
database / vector-index / blob-store effects are abstracted into explicit
environment records whose fields model the backend responses (with
Option used for operations whose exceptions the source catches), and
IEEE floats are modelled as exact rationals, so the scoring formulas are
stated at the level of real arithmetic.
-/

namespace KnowledgeRAG

/-- A Python value as it appears in database rows and filter dictionaries:
None, an integer, or a string.  Truthiness and str() follow Python. -/
inductive Value where
  | vNull : Value
  | vInt (n : ℤ) : Value
  | vStr (s : String) : Value
deriving DecidableEq, Repr

/-- Python truthiness for the modelled values. -/
def Value.truthy : Value → Bool
  | .vNull => false
  | .vInt n => n != 0
  | .vStr s => s != ""

/-- Python str() for the modelled values. -/
def Value.toStr : Value → String
  | .vNull => "None"
  | .vInt n => toString n
  | .vStr s => s

/-- A database row / Python dict, as an insertion-ordered association list. -/
abbrev Row := List (String × Value)

/-- dict.get: the value stored at a key, if present. -/
def rowGet (row : Row) (k : String) : Option Value :=
  (row.find? (fun p => p.1 == k)).map (fun p => p.2)

/-- dict[k] = v: replace the value in place if the key exists (keeping its
position, as Python dicts do), otherwise append the key at the end. -/
def dictSet {β : Type} (acc : List (String × β)) (k : String) (v : β) :
    List (String × β) :=
  if acc.any (fun p => p.1 == k) then
    acc.map (fun p => if p.1 == k then (p.1, v) else p)
  else
    acc ++ [(k, v)]

/-- Does the first character list start with the second one? -/
def startsWithChars : List Char → List Char → Bool
  | _, [] => true
  | [], _ :: _ => false
  | a :: as, b :: bs => a == b && startsWithChars as bs

/-- Does the character list contain the second one as a contiguous run? -/
def containsChars (s sub : List Char) : Bool :=
  match s with
  | [] => startsWithChars [] sub
  | _ :: rest => startsWithChars s sub || containsChars rest sub

/-- Substring test, modelling the Python expression sub in s. -/
def strContains (s sub : String) : Bool :=
  containsChars s.data sub.data

/-- Whitespace splitting on a character list, dropping empty pieces;
the accumulator holds the current word reversed. -/
def wordsAux : List Char → List Char → List String
  | [], acc => if acc.isEmpty then [] else [String.mk acc.reverse]
  | c :: cs, acc =>
    if c.isWhitespace then
      if acc.isEmpty then wordsAux cs [] else String.mk acc.reverse :: wordsAux cs []
    else wordsAux cs (c :: acc)

/-- query.lower().split(): case-fold, split on whitespace, drop empty pieces. -/
def pyWords (s : String) : List String :=
  wordsAux (s.data.map Char.toLower) []

/-- set(s.lower().split()): the case-folded whitespace-split token set,
represented as a duplicate-free list. -/
def tokenSet (s : String) : List String :=
  (pyWords s).dedup

/-- Cardinality of the intersection of two token sets (the first one is
duplicate-free, so the filter length is the set-intersection size). -/
def interCard (a b : List String) : ℕ :=
  (a.filter (fun w => b.contains w)).length

/-- FlexibleSearchEngine._calculate_text_similarity: word-overlap ratio
|queryWords ∩ textWords| / |queryWords|, with 0.0 for empty query or text. -/
def calculate_text_similarity (query text : String) : ℚ :=
  if query = "" ∨ text = "" then 0
  else
    let query_words := tokenSet query
    let text_words := tokenSet text
    if query_words = [] then 0
    else
      (interCard query_words text_words : ℚ) / (query_words.length : ℚ)

example : calculate_text_similarity "machine learning" "machine learning basics" = 1 := by
  simp only [calculate_text_similarity]
  rw [if_neg (by decide), if_neg (by decide)]
  rw [show interCard (tokenSet "machine learning") (tokenSet "machine learning basics") = 2
      from by decide]
  rw [show (tokenSet "machine learning").length = 2 from by decide]
  norm_num

example : calculate_text_similarity "deep learning" "machine learning basics" = 1 / 2 := by
  simp only [calculate_text_similarity]
  rw [if_neg (by decide), if_neg (by decide)]
  rw [show interCard (tokenSet "deep learning") (tokenSet "machine learning basics") = 1
      from by decide]
  rw [show (tokenSet "deep learning").length = 2 from by decide]
  norm_num

/-- SearchResult dataclass of flexible_search.py. -/
structure SearchResult where
  id : String
  score : ℚ
  content : String
  metadata : Row
  source : String
deriving DecidableEq, Repr

/-- SearchQuery dataclass of flexible_search.py (threshold defaults to 0.7
and is never read by any strategy). -/
structure SearchQuery where
  query_text : String
  query_type : String := "semantic"
  filters : Option Row := none
  top_k : ℤ := 10
  threshold : ℚ := 7 / 10
  experiment_name : Option String := none
  table_mapping : Option (List (String × String)) := none

/-- A hit returned by MilvusClient.search (SearchResult dataclass of
milvus_client.py); distance is the backend-reported metric value. -/
structure VectorHit where
  embedding_id : ℤ
  user_id : ℤ
  doc_uuid : String
  version_label : String
  chunk_uid : String
  distance : ℚ
  timestamp : ℤ
deriving DecidableEq, Repr

/-- The backends as the engine observes them.  A none response models an
exception raised by the client call, which flexible_search.py catches. -/
structure Env where
  /-- whether get_milvus_client() succeeded in the constructor -/
  milvusAvailable : Bool
  /-- _get_query_embedding (external capability; none models a raise) -/
  embed : String → Option (List ℚ)
  /-- milvus_client.search, given vector, top_k, optional user_id filter -/
  vecSearch : List ℚ → ℤ → Option Value → Option (List VectorHit)
  /-- _get_content_by_chunk_id (returns None on missing row or exception) -/
  chunkContent : String → Option String
  /-- mysql_client.list_tables -/
  listTables : Option (List String)
  /-- DESCRIBE table: list of (Field, Type) pairs -/
  describe : String → Option (List (String × String))
  /-- executing a SELECT with its parameter list -/
  dbQuery : String → List Value → Option (List Row)
  /-- executing the caller-supplied custom SQL -/
  customExec : Value → Option (List Row)

/-- Python list slicing l[:k], which drops from the end for negative k. -/
def pyTake {α : Type} (k : ℤ) (l : List α) : List α :=
  if 0 ≤ k then l.take k.toNat else l.take (l.length - (-k).toNat)

/-- Insert a result into a score-descending list, after all entries with a
greater-or-equal score (the stable position Python's sort gives it). -/
def insertDesc (r : SearchResult) : List SearchResult → List SearchResult
  | [] => [r]
  | x :: xs => if x.score < r.score then r :: x :: xs else x :: insertDesc r xs

/-- results.sort(key=lambda x: x.score, reverse=True): a stable
score-descending sort. -/
def sortByScoreDesc (l : List SearchResult) : List SearchResult :=
  l.foldl (fun acc r => insertDesc r acc) []

/-- _extract_content_from_row: first truthy field among text, content,
title, name; otherwise a space-joined concatenation of truthy values. -/
def extract_content_from_row (row : Row) : String :=
  match (["text", "content", "title", "name"].filter
      (fun f => ((rowGet row f).map Value.truthy).getD false)).head? with
  | some f => (((rowGet row f).map Value.toStr).getD "")
  | none => String.intercalate " "
      (((row.map (fun p => p.2)).filter Value.truthy).map Value.toStr)

/-- The per-column LIKE conditions of _search_in_table. -/
def buildSearchConditions (text_columns : List String) : List String :=
  text_columns.map (fun col => col ++ " LIKE %s")

/-- The WHERE clause of _search_in_table: OR of the LIKE conditions, then
one AND equality per filter key other than user_id. -/
def buildWhereClause (text_columns : List String) (filters : Row) : String :=
  let base := " OR ".intercalate (buildSearchConditions text_columns)
  filters.foldl
    (fun acc p => if p.1 == "user_id" then acc else acc ++ " AND " ++ p.1 ++ " = %s")
    base

/-- The parameter list of _search_in_table: one LIKE pattern per text
column, the filter values other than user_id, then the LIMIT argument. -/
def buildParams (text_columns : List String) (query_text : String)
    (filters : Row) (top_k : ℤ) : List Value :=
  let params := text_columns.map (fun _ => Value.vStr ("%" ++ query_text ++ "%"))
  let params := filters.foldl
    (fun acc p => if p.1 == "user_id" then acc else acc ++ [p.2]) params
  params ++ [Value.vInt top_k]

/-- Is a declared column type textual?  Mirrors the source check
any(t in col_type for t in ['text', 'varchar', 'char']). -/
def typeIsText (colType : String) : Bool :=
  let lowered := String.mk (colType.data.map Char.toLower)
  strContains lowered "text" || strContains lowered "varchar" || strContains lowered "char"

/-- _search_in_table: introspect columns, build and run the LIKE query, and
score each row by word overlap with the query text.  A none from the
backend models the caught exception path, which yields no results. -/
def searchInTable (env : Env) (table_name query_text : String)
    (filters : Option Row) (top_k : ℤ) : List SearchResult :=
  match env.describe table_name with
  | none => []
  | some columns =>
    let text_columns := (columns.filter (fun c => typeIsText c.2)).map (fun c => c.1)
    if text_columns.isEmpty then []
    else
      let fs := filters.getD []
      let where_clause := buildWhereClause text_columns fs
      let sql := "SELECT * FROM " ++ table_name ++ " WHERE " ++ where_clause ++ " LIMIT %s"
      match env.dbQuery sql (buildParams text_columns query_text fs top_k) with
      | none => []
      | some rows =>
        rows.map (fun row =>
          let content := extract_content_from_row row
          { id := ((rowGet row "id").getD (Value.vStr "")).toStr
            score := calculate_text_similarity query_text content
            content := content
            metadata := row
            source := table_name })

/-- The default table mapping of FlexibleSearchEngine. -/
def default_table_mapping : List (String × String) :=
  [("users", "users"), ("documents", "documents"),
   ("chunks", "chunks"), ("vectors", "embeddings")]

/-- The per-table accumulation phase of _keyword_search: every mapped table
that exists is searched and the results concatenated.  (The source's early
return of the empty result list on errors or missing tables coincides with
sorting and truncating the empty list.) -/
def keywordRawResults (env : Env) (q : SearchQuery) : List SearchResult :=
  let table_mapping := match q.table_mapping with
    | some m => if m.isEmpty then default_table_mapping else m
    | none => default_table_mapping
  match env.listTables with
  | none => []
  | some tables =>
    let available_tables := (table_mapping.map (fun p => p.2)).filter
      (fun t => tables.contains t)
    available_tables.foldl
      (fun acc t => acc ++ searchInTable env t q.query_text q.filters q.top_k) []

/-- _keyword_search: accumulate per-table results, sort by score
descending, truncate to top_k. -/
def keyword_search (env : Env) (q : SearchQuery) : List SearchResult :=
  pyTake q.top_k (sortByScoreDesc (keywordRawResults env q))

/-- query.filters.get('user_id') if query.filters else None. -/
def semanticUserArg (q : SearchQuery) : Option Value :=
  match q.filters with
  | some f => rowGet f "user_id"
  | none => none

/-- The SearchResult built from one vector hit in _semantic_search. -/
def mkSemanticResult (hit : VectorHit) (content : String) : SearchResult :=
  { id := hit.chunk_uid
    score := 1 - hit.distance
    content := content
    metadata := [("doc_uuid", Value.vStr hit.doc_uuid),
                 ("version_label", Value.vStr hit.version_label),
                 ("timestamp", Value.vInt hit.timestamp)]
    source := "milvus" }

/-- _semantic_search: fall back to keyword search when Milvus is not
connected; otherwise embed the query, search the vector backend with the
optional user_id filter, and hydrate contents, silently dropping hits
whose content lookup fails.  Exceptions (none) yield the empty list. -/
def semantic_search (env : Env) (q : SearchQuery) : List SearchResult :=
  if env.milvusAvailable = false then keyword_search env q
  else
    match env.embed q.query_text with
    | none => []
    | some query_vector =>
      match env.vecSearch query_vector q.top_k (semanticUserArg q) with
      | none => []
      | some vector_results =>
        vector_results.foldl (fun acc result =>
          match env.chunkContent result.chunk_uid with
          | none => acc
          | some content =>
            if content = "" then acc else acc ++ [mkSemanticResult result content]) []

/-- result.score *= 0.6 of the semantic loop of _hybrid_search. -/
def scaleSemantic (r : SearchResult) : SearchResult :=
  { r with score := r.score * (6 / 10) }

/-- result.score *= 0.4 of the keyword loop of _hybrid_search. -/
def scaleKeyword (r : SearchResult) : SearchResult :=
  { r with score := r.score * (4 / 10) }

/-- combined_results[result.id].score += result.score * 0.4 of the keyword
loop of _hybrid_search, as the value update it applies. -/
def addKeywordScore (r v : SearchResult) : SearchResult :=
  { v with score := v.score + r.score * (4 / 10) }

/-- One iteration of the keyword loop of _hybrid_search: if the id is
already in the dict, add the 0.4-weighted keyword score onto the stored
entry; otherwise append the keyword result scaled by 0.4. -/
def hybridKeywordStep (acc : List (String × SearchResult)) (r : SearchResult) :
    List (String × SearchResult) :=
  if acc.any (fun p => p.1 == r.id) then
    acc.map (fun p => if p.1 == r.id then (p.1, addKeywordScore r p.2) else p)
  else acc ++ [(r.id, scaleKeyword r)]

/-- The merge step of _hybrid_search: a dict keyed by result id, semantic
entries scaled by 0.6, keyword entries folded in by hybridKeywordStep. -/
def hybridCombine (semantic_results keyword_results : List SearchResult) :
    List (String × SearchResult) :=
  let combined := semantic_results.foldl
    (fun acc r => dictSet acc r.id (scaleSemantic r)) []
  keyword_results.foldl hybridKeywordStep combined

/-- Association-list lookup by key (dict access). -/
def alLookup {β : Type} (l : List (String × β)) (k : String) : Option β :=
  (l.find? (fun p => p.1 == k)).map (fun p => p.2)

/-- The merged entry the documented scoring contract assigns to an id:
0.6 times the semantic score plus 0.4 times the keyword score when the id
is in both result sets, the single weighted score otherwise.  This
definition follows the specification text and is compared against the
code's hybridCombine. -/
def hybridSpecEntry (semantic_results keyword_results : List SearchResult)
    (id : String) : Option SearchResult :=
  match semantic_results.find? (fun r => r.id == id),
        keyword_results.find? (fun r => r.id == id) with
  | some s, some k => some (addKeywordScore k (scaleSemantic s))
  | some s, none => some (scaleSemantic s)
  | none, some k => some (scaleKeyword k)
  | none, none => none

/-- _hybrid_search: run both strategies, merge by result id with weights
0.6/0.4, sort by score descending, truncate to top_k. -/
def hybrid_search (env : Env) (q : SearchQuery) : List SearchResult :=
  let merged := (hybridCombine (semantic_search env q) (keyword_search env q)).map
    (fun p => p.2)
  pyTake q.top_k (sortByScoreDesc merged)

/-- The SearchResult built from one row (with its enumerate index) in
_custom_search; the constant score is 1.0. -/
def mkCustomResult (i : ℕ) (row : Row) : SearchResult :=
  { id := ((rowGet row "id").getD (Value.vInt i)).toStr
    score := 1
    content := extract_content_from_row row
    metadata := row
    source := "custom_sql" }

/-- _custom_search: raises unless filters carry custom_sql; otherwise runs
the caller-supplied SQL, swallowing backend failures into an empty list. -/
def custom_search (env : Env) (q : SearchQuery) : Except String (List SearchResult) :=
  match q.filters with
  | none => Except.error "custom search requires custom_sql"
  | some f =>
    match rowGet f "custom_sql" with
    | none => Except.error "custom search requires custom_sql"
    | some custom_sql =>
      match env.customExec custom_sql with
      | none => Except.ok []
      | some rows => Except.ok (rows.enum.map (fun p => mkCustomResult p.1 p.2))

/-- FlexibleSearchEngine.search: dispatch on query_type; unknown types and
custom-search validation errors propagate to the caller. -/
def search (env : Env) (q : SearchQuery) : Except String (List SearchResult) :=
  if q.query_type = "semantic" then Except.ok (semantic_search env q)
  else if q.query_type = "keyword" then Except.ok (keyword_search env q)
  else if q.query_type = "hybrid" then Except.ok (hybrid_search env q)
  else if q.query_type = "custom" then custom_search env q
  else Except.error ("unsupported query type: " ++ q.query_type)

/-- The backend operations UnifiedDataManager issues (experiment_data.py);
used to observe which backends a lifecycle call touches. -/
inductive BackendCall where
  | mysqlCreate (dbName : String)
  | milvusCreate (collection : String)
  | storeCreate (dir : String)
  | mysqlDrop (dbName : String)
  | milvusDrop (collection : String)
  | storeRemove (dir : String)
  | configWrite (name : String)
  | configDelete (name : String)
deriving DecidableEq, Repr

/-- The connection state and backend outcomes seen by UnifiedDataManager:
the three services_status flags and the success of each private helper. -/
structure LifecycleEnv where
  mysqlConnected : Bool
  milvusConnected : Bool
  localStoreConnected : Bool
  mysqlCreateOk : String → String → Bool
  milvusCreateOk : String → Bool
  storeCreateOk : String → Bool
  mysqlDropOk : String → Bool
  milvusDropOk : String → Bool
  storeRemoveOk : String → Bool

/-- UnifiedDataManager.create_experiment: the results dict starts with keys
mysql, milvus and minio; each connected backend is attempted (the local
object store writes the separate key local_object_store); the experiment
config file is always written.  No name validation occurs. -/
def create_experiment (env : LifecycleEnv) (experiment_name _researcher _description
    template : String) : List (String × Bool) × List BackendCall :=
  let results : List (String × Bool) := [("mysql", false), ("milvus", false), ("minio", false)]
  let step1 : List (String × Bool) × List BackendCall :=
    if env.mysqlConnected then
      (dictSet results "mysql" (env.mysqlCreateOk experiment_name template),
       [BackendCall.mysqlCreate ("knowledge_rag_" ++ experiment_name)])
    else (results, [])
  let step2 : List (String × Bool) × List BackendCall :=
    if env.milvusConnected then
      (dictSet step1.1 "milvus" (env.milvusCreateOk experiment_name),
       step1.2 ++ [BackendCall.milvusCreate ("knowledge_rag_" ++ experiment_name ++ "_documents")])
    else step1
  let step3 : List (String × Bool) × List BackendCall :=
    if env.localStoreConnected then
      (dictSet step2.1 "local_object_store" (env.storeCreateOk experiment_name),
       step2.2 ++ [BackendCall.storeCreate experiment_name])
    else step2
  (step3.1, step3.2 ++ [BackendCall.configWrite experiment_name])

/-- UnifiedDataManager.delete_experiment: without force, an interactive
confirmation other than y returns the cancelled marker; otherwise each
connected backend delete is attempted and the config file removed. -/
def delete_experiment (env : LifecycleEnv) (experiment_name : String)
    (force confirmYes : Bool) : List (String × Bool) × List BackendCall :=
  if force = false ∧ confirmYes = false then ([("cancelled", true)], [])
  else
    let results : List (String × Bool) :=
      [("mysql", false), ("milvus", false), ("local_object_store", false)]
    let step1 : List (String × Bool) × List BackendCall :=
      if env.mysqlConnected then
        (dictSet results "mysql" (env.mysqlDropOk experiment_name),
         [BackendCall.mysqlDrop ("knowledge_rag_" ++ experiment_name)])
      else (results, [])
    let step2 : List (String × Bool) × List BackendCall :=
      if env.milvusConnected then
        (dictSet step1.1 "milvus" (env.milvusDropOk experiment_name),
         step1.2 ++ [BackendCall.milvusDrop ("knowledge_rag_" ++ experiment_name ++ "_documents")])
      else step1
    let step3 : List (String × Bool) × List BackendCall :=
      if env.localStoreConnected then
        (dictSet step2.1 "local_object_store" (env.storeRemoveOk experiment_name),
         step2.2 ++ [BackendCall.storeRemove experiment_name])
      else step2
    (step3.1, step3.2 ++ [BackendCall.configDelete experiment_name])

/-- A column definition of experiment_schemas.py (comment empty means the
key is absent or falsy; a present default may be any value, including 0). -/
structure ColumnDef where
  name : String
  type : String
  not_null : Bool := false
  auto_increment : Bool := false
  primary_key : Bool := false
  default : Option Value := none
  comment : String := ""
deriving DecidableEq, Repr

/-- A foreign key definition (empty strings model absent on_delete or
on_update keys). -/
structure FKDef where
  column : String
  ref_table : String
  ref_column : String
  on_delete : String := ""
  on_update : String := ""
deriving DecidableEq, Repr

/-- An index definition; the type key defaults to INDEX. -/
structure IndexDef where
  name : String
  type : String := "INDEX"
  columns : List String := []
deriving DecidableEq, Repr

/-- A table definition inside a SchemaTemplate. -/
structure TableDef where
  columns : List ColumnDef
  indexes : List IndexDef := []
  foreign_keys : List FKDef := []
  created_at : String := ""
deriving DecidableEq, Repr

/-- SchemaTemplate of experiment_schemas.py; tables keep insertion order. -/
structure SchemaTemplate where
  name : String
  description : String
  version : String := "1.0"
  created_at : String
  tables : List (String × TableDef)
deriving DecidableEq, Repr

/-- One column line of generate_sql. -/
def columnSQL (col : ColumnDef) : String :=
  let s := "    " ++ col.name ++ " " ++ col.type
  let s := if col.not_null then s ++ " NOT NULL" else s
  let s := if col.auto_increment then s ++ " AUTO_INCREMENT" else s
  let s := if col.primary_key then s ++ " PRIMARY KEY" else s
  let s := match col.default with
    | some (Value.vStr d) => s ++ " DEFAULT '" ++ d ++ "'"
    | some v => s ++ " DEFAULT " ++ v.toStr
    | none => s
  if col.comment != "" then s ++ " COMMENT '" ++ col.comment ++ "'" else s

/-- One foreign-key line of generate_sql. -/
def fkSQL (fk : FKDef) : String :=
  let s := "    FOREIGN KEY (" ++ fk.column ++ ") REFERENCES " ++ fk.ref_table ++
    "(" ++ fk.ref_column ++ ")"
  let s := if fk.on_delete != "" then s ++ " ON DELETE " ++ fk.on_delete else s
  if fk.on_update != "" then s ++ " ON UPDATE " ++ fk.on_update else s

/-- One CREATE INDEX statement of generate_sql. -/
def indexSQL (table_name : String) (idx : IndexDef) : String :=
  let s := "CREATE " ++ idx.type ++ " idx_" ++ table_name ++ "_" ++ idx.name ++
    " ON " ++ table_name
  let s := if idx.columns.isEmpty then s
    else s ++ " (" ++ ", ".intercalate idx.columns ++ ")"
  s ++ ";"

/-- The statement lines generate_sql emits for one table. -/
def tableStatements (table_name : String) (td : TableDef) : List String :=
  ["-- 表: " ++ table_name,
   "CREATE TABLE IF NOT EXISTS " ++ table_name ++ " ("] ++
  [",\n".intercalate (td.columns.map columnSQL ++ td.foreign_keys.map fkSQL)] ++
  [") ENGINE=InnoDB DEFAULT CHARSET=utf8mb4 COLLATE=utf8mb4_unicode_ci;", ""] ++
  td.indexes.map (indexSQL table_name) ++ [""]

/-- SchemaTemplate.generate_sql: header comment lines, then the rendered
tables in declaration order, joined with newlines. -/
def generate_sql (t : SchemaTemplate) : String :=
  "\n".intercalate
    (["-- " ++ t.name ++ " 表结构",
      "-- 描述: " ++ t.description,
      "-- 创建时间: " ++ t.created_at,
      "-- 版本: " ++ t.version, ""] ++
     t.tables.foldl (fun acc p => acc ++ tableStatements p.1 p.2) [])

/-- The filter expression MilvusClient.search builds from its optional
arguments (milvus_client.py): one clause per present argument, joined
with and. -/
def milvusFilterExpr (user_id : Option Value) (doc_uuid : Option String)
    (version_label : Option String) (ts_range : Option (ℤ × ℤ)) : Option String :=
  let filter_expressions :=
    (match user_id with
     | some u => ["user_id == " ++ u.toStr]
     | none => []) ++
    (match doc_uuid with
     | some d2 => ["doc_uuid == \"" ++ d2 ++ "\""]
     | none => []) ++
    (match version_label with
     | some vl => ["version_label == \"" ++ vl ++ "\""]
     | none => []) ++
    (match ts_range with
     | some ts => ["ts >= " ++ toString ts.1 ++ " and ts <= " ++ toString ts.2]
     | none => [])
  if filter_expressions.isEmpty then none
  else some (" and ".intercalate filter_expressions)

/-! ## Concrete test fixtures -/

/-- An engine environment with every backend unreachable. -/
def offlineEnv : Env :=
  { milvusAvailable := false
    embed := fun _ => none
    vecSearch := fun _ _ _ => none
    chunkContent := fun _ => none
    listTables := none
    describe := fun _ => none
    dbQuery := fun _ _ => none
    customExec := fun _ => none }

/-- A lifecycle environment with all three services connected and every
backend operation succeeding. -/
def demoLifecycleEnv : LifecycleEnv :=
  { mysqlConnected := true
    milvusConnected := true
    localStoreConnected := true
    mysqlCreateOk := fun _ _ => true
    milvusCreateOk := fun _ => true
    storeCreateOk := fun _ => true
    mysqlDropOk := fun _ => true
    milvusDropOk := fun _ => true
    storeRemoveOk := fun _ => true }

/-- The built-in basic_rag template of experiment_schemas.py (created_at is
whatever timestamp the constructor captured). -/
def basicRagTemplate : SchemaTemplate :=
  { name := "basic_rag"
    description := "基础RAG表结构"
    created_at := "2025-01-01T00:00:00"
    tables :=
      [("users",
        { columns :=
            [{ name := "id", type := "BIGINT", auto_increment := true, primary_key := true },
             { name := "name", type := "VARCHAR(255)", not_null := true, comment := "用户名" },
             { name := "email", type := "VARCHAR(255)", comment := "邮箱" },
             { name := "created_at", type := "DATETIME",
               default := some (Value.vStr "CURRENT_TIMESTAMP") }] }),
       ("documents",
        { columns :=
            [{ name := "id", type := "BIGINT", auto_increment := true, primary_key := true },
             { name := "user_id", type := "BIGINT", not_null := true },
             { name := "title", type := "VARCHAR(255)", not_null := true },
             { name := "content", type := "LONGTEXT" },
             { name := "created_at", type := "DATETIME",
               default := some (Value.vStr "CURRENT_TIMESTAMP") }]
          foreign_keys :=
            [{ column := "user_id", ref_table := "users", ref_column := "id",
               on_delete := "CASCADE" }] }),
       ("chunks",
        { columns :=
            [{ name := "id", type := "BIGINT", auto_increment := true, primary_key := true },
             { name := "document_id", type := "BIGINT", not_null := true },
             { name := "text", type := "MEDIUMTEXT", not_null := true },
             { name := "sequence", type := "INT", default := some (Value.vInt 0) },
             { name := "created_at", type := "DATETIME",
               default := some (Value.vStr "CURRENT_TIMESTAMP") }]
          foreign_keys :=
            [{ column := "document_id", ref_table := "documents", ref_column := "id",
               on_delete := "CASCADE" }] })] }

/-- A vector hit whose distance exceeds 1 (possible under the L2 metric the
collection is created with, and under COSINE distances above 1). -/
def c6Hit1 : VectorHit :=
  { embedding_id := 1, user_id := 1, doc_uuid := "d1", version_label := "v1",
    chunk_uid := "a", distance := 3 / 2, timestamp := 0 }

/-- A second hit with a smaller distance, listed after the first. -/
def c6Hit2 : VectorHit :=
  { embedding_id := 2, user_id := 1, doc_uuid := "d2", version_label := "v1",
    chunk_uid := "b", distance := 1 / 2, timestamp := 0 }

/-- An environment whose vector backend returns c6Hit1 then c6Hit2. -/
def c6Env : Env :=
  { offlineEnv with
    milvusAvailable := true
    embed := fun _ => some [1]
    vecSearch := fun _ _ _ => some [c6Hit1, c6Hit2]
    chunkContent := fun _ => some "some stored text" }

/-- A default (semantic) query. -/
def c6Query : SearchQuery := { query_text := "q" }

/-- A well-behaved vector hit with distance 1/4. -/
def c6GoodHit : VectorHit :=
  { embedding_id := 3, user_id := 1, doc_uuid := "d", version_label := "v",
    chunk_uid := "c", distance := 1 / 4, timestamp := 0 }

/-- An environment whose vector backend returns only c6GoodHit. -/
def c6GoodEnv : Env :=
  { offlineEnv with
    milvusAvailable := true
    embed := fun _ => some [1]
    vecSearch := fun _ _ _ => some [c6GoodHit]
    chunkContent := fun _ => some "stored" }

/-- A vector hit whose chunk id collides with the relational row id. -/
def c4Hit : VectorHit :=
  { embedding_id := 9, user_id := 1, doc_uuid := "d", version_label := "v",
    chunk_uid := "1", distance := 1 / 2, timestamp := 0 }

/-- The relational row backing the hybrid fixture. -/
def c4Row : Row := [("id", Value.vInt 1), ("content", Value.vStr "hello world")]

/-- An environment where semantic and keyword search both return one result
with the same id. -/
def c4Env : Env :=
  { milvusAvailable := true
    embed := fun _ => some [1]
    vecSearch := fun _ _ _ => some [c4Hit]
    chunkContent := fun _ => some "hello"
    listTables := some ["documents"]
    describe := fun _ => some [("id", "BIGINT"), ("content", "LONGTEXT")]
    dbQuery := fun _ _ => some [c4Row]
    customExec := fun _ => none }

/-- The hybrid fixture query. -/
def c4Query : SearchQuery := { query_text := "hello" }

/-- The one semantic result of the hybrid fixture. -/
def c4SemResult : SearchResult := mkSemanticResult c4Hit "hello"

/-- The one keyword result of the hybrid fixture. -/
def c4KwResult : SearchResult :=
  { id := "1"
    score := calculate_text_similarity "hello" "hello world"
    content := "hello world"
    metadata := c4Row
    source := "documents" }

/-- An engine environment whose relational backend fails every query. -/
def failingSQLEnv : Env :=
  { offlineEnv with milvusAvailable := false }

/-- A demo row whose only textual column equals the query string. -/
def kwDemoRow : Row := [("id", Value.vInt 1), ("content", Value.vStr "machine learning")]

/-- An environment whose relational backend holds exactly kwDemoRow. -/
def kwDemoEnv : Env :=
  { offlineEnv with
    listTables := some ["documents"]
    describe := fun _ => some [("id", "BIGINT"), ("content", "LONGTEXT")]
    dbQuery := fun _ _ => some [kwDemoRow] }

/-- The search result the keyword table search builds from kwDemoRow. -/
def kwDemoResult : SearchResult :=
  { id := "1"
    score := calculate_text_similarity "machine learning" "machine learning"
    content := "machine learning"
    metadata := kwDemoRow
    source := "documents" }

/-! ## Claim C1: experiment-name validation -/

/-- C1 counterexample: create_experiment with the invalid name "bad name!"
(space and exclamation mark, outside the identifier grammar) still issues
backend create calls for all three connected backends and reports outcomes
normally; there is no InvalidName failure and no rejection before backend
calls. -/
theorem C1_counterexample :
    BackendCall.mysqlCreate "knowledge_rag_bad name!"
      ∈ (create_experiment demoLifecycleEnv "bad name!" "" "" "basic_rag").2
    ∧ (create_experiment demoLifecycleEnv "bad name!" "" "" "basic_rag").1
      = [("mysql", true), ("milvus", true), ("minio", false), ("local_object_store", true)] := by
  decide

/-- C1 (amended): create_experiment performs no grammar validation at all:
for every experiment name, whatever its characters, the name is
interpolated directly into backend identifiers and each connected
backend's create operation is attempted. -/
theorem C1_create_never_validates (env : LifecycleEnv) (n r d tpl : String)
    (h : env.mysqlConnected = true) :
    BackendCall.mysqlCreate ("knowledge_rag_" ++ n)
      ∈ (create_experiment env n r d tpl).2
    ∧ (env.milvusConnected = true →
        BackendCall.milvusCreate ("knowledge_rag_" ++ n ++ "_documents")
          ∈ (create_experiment env n r d tpl).2)
    ∧ (env.localStoreConnected = true →
        BackendCall.storeCreate n ∈ (create_experiment env n r d tpl).2) := by
  rcases env with ⟨mc, vc, lc, f1, f2, f3, g1, g2, g3⟩
  simp only at h
  subst h
  cases vc <;> cases lc <;> simp [create_experiment, dictSet]

/-- C1 witness: the amended theorem applied to the all-connected
environment and the name exp1. -/
theorem C1_witness :
    BackendCall.mysqlCreate ("knowledge_rag_" ++ "exp1")
      ∈ (create_experiment demoLifecycleEnv "exp1" "" "" "basic_rag").2 :=
  (C1_create_never_validates demoLifecycleEnv "exp1" "" "" "basic_rag" rfl).1

/-! ## Claim C2: lifecycle result maps -/

/-- C2 counterexample: with all three services connected, create_experiment
returns a four-key map — the stale initial key minio (never updated; the
local object store result is written under local_object_store) plus the
three live keys — and delete_experiment without force and without
confirmation returns the substitute map containing only cancelled. -/
theorem C2_counterexample :
    (create_experiment demoLifecycleEnv "exp1" "" "" "basic_rag").1.map Prod.fst
      = ["mysql", "milvus", "minio", "local_object_store"]
    ∧ (delete_experiment demoLifecycleEnv "exp1" false false).1
      = [("cancelled", true)] := by
  decide

/-- C2 (amended): create_experiment's map always holds the keys mysql,
milvus and the stale always-false key minio, plus local_object_store when
the local store is connected; delete_experiment returns the keys mysql,
milvus and local_object_store when forced or confirmed, and the map
containing only cancelled when neither. -/
theorem C2_lifecycle_result_shapes (env : LifecycleEnv) (n r d tpl : String)
    (force confirmYes : Bool) :
    (create_experiment env n r d tpl).1.map Prod.fst
      = ["mysql", "milvus", "minio"]
        ++ (if env.localStoreConnected then ["local_object_store"] else [])
    ∧ ((create_experiment env n r d tpl).1.find? (fun p => p.1 == "minio")).map Prod.snd
      = some false
    ∧ (force = true ∨ confirmYes = true →
        (delete_experiment env n force confirmYes).1.map Prod.fst
          = ["mysql", "milvus", "local_object_store"])
    ∧ (force = false → confirmYes = false →
        (delete_experiment env n force confirmYes).1 = [("cancelled", true)]) := by
  rcases env with ⟨mc, vc, lc, f1, f2, f3, g1, g2, g3⟩
  cases mc <;> cases vc <;> cases lc <;> cases force <;> cases confirmYes <;>
    simp [create_experiment, delete_experiment, dictSet]

/-- C2 witness: the amended theorem applied to the all-connected
environment with force set. -/
theorem C2_witness :
    (create_experiment demoLifecycleEnv "exp1" "" "" "basic_rag").1.map Prod.fst
      = ["mysql", "milvus", "minio"]
        ++ (if demoLifecycleEnv.localStoreConnected then ["local_object_store"] else [])
    ∧ (delete_experiment demoLifecycleEnv "exp1" true false).1.map Prod.fst
      = ["mysql", "milvus", "local_object_store"] :=
  ⟨(C2_lifecycle_result_shapes demoLifecycleEnv "exp1" "" "" "basic_rag" true false).1,
   (C2_lifecycle_result_shapes demoLifecycleEnv "exp1" "" "" "basic_rag" true false).2.2.1
     (Or.inl rfl)⟩

/-! ## Claim C3: semantic fallback to keyword -/

/-- C3: when the vector backend is unavailable, a semantic query returns
exactly the list that the keyword strategy returns for the same query. -/
theorem C3_semantic_falls_back_to_keyword (env : Env) (q : SearchQuery)
    (h1 : q.query_type = "semantic") (h2 : env.milvusAvailable = false) :
    search env q = search env { q with query_type := "keyword" } := by
  cases q
  simp only at h1
  subst h1
  simp only [search, semantic_search, h2]
  rfl

/-- C3 witness: the fallback equality at the offline environment. -/
theorem C3_witness :
    search offlineEnv { query_text := "machine learning" }
      = search offlineEnv
          { ({ query_text := "machine learning" } : SearchQuery) with
            query_type := "keyword" } :=
  C3_semantic_falls_back_to_keyword offlineEnv { query_text := "machine learning" } rfl rfl

/-! ## Claim C7: scoreThreshold is never applied -/

/-- C7: for every strategy, the search result is independent of the
threshold field; no strategy reads it. -/
theorem C7_threshold_never_applied (env : Env) (q : SearchQuery) (t1 t2 : ℚ) :
    search env { q with threshold := t1 } = search env { q with threshold := t2 } := by
  cases q
  rfl

/-! ## Claim C9: deterministic DDL rendering -/

/-- C9: generate_sql is a pure function of the template value: two
invocations on the same template produce identical output text (the
embedding is a function of the template alone, with no other input). -/
theorem C9_generate_sql_deterministic (t1 t2 : SchemaTemplate) (h : t1 = t2) :
    generate_sql t1 = generate_sql t2 := by
  rw [h]

/-- C9 witness: determinism at the built-in basic_rag template. -/
theorem C9_witness : generate_sql basicRagTemplate = generate_sql basicRagTemplate :=
  C9_generate_sql_deterministic basicRagTemplate basicRagTemplate rfl

/-! ## Claim C10: custom-search error behaviour -/

/-- C10: a custom-strategy search raises exactly when filters are absent or
lack the custom_sql key; when custom_sql is present but the backend
execution fails, the failure is swallowed and the empty list returned. -/
theorem C10_custom_error_behaviour (env : Env) (q : SearchQuery)
    (h : q.query_type = "custom") :
    ((∃ msg, search env q = Except.error msg) ↔
      (q.filters = none ∨ ∃ f, q.filters = some f ∧ rowGet f "custom_sql" = none))
    ∧ (∀ f sqlv, q.filters = some f → rowGet f "custom_sql" = some sqlv →
        env.customExec sqlv = none → search env q = Except.ok []) := by
  have hd : search env q = custom_search env q := by
    cases q
    simp only at h
    subst h
    simp [search]
  rw [hd]
  constructor
  · cases hf : q.filters with
    | none => simp [custom_search, hf]
    | some f =>
      cases hg : rowGet f "custom_sql" with
      | none => simp [custom_search, hf, hg]
      | some v => cases he : env.customExec v <;> simp [custom_search, hf, hg, he]
  · intro f sqlv hf hsql he
    simp [custom_search, hf, hsql, he]

/-- C10 witness: with filters carrying custom_sql and a failing backend,
the custom strategy returns the empty list instead of an error. -/
theorem C10_witness :
    search failingSQLEnv
        { query_text := "", query_type := "custom",
          filters := some [("custom_sql", Value.vStr "SELECT * FROM t")] }
      = Except.ok [] :=
  (C10_custom_error_behaviour failingSQLEnv
      { query_text := "", query_type := "custom",
        filters := some [("custom_sql", Value.vStr "SELECT * FROM t")] } rfl).2
    [("custom_sql", Value.vStr "SELECT * FROM t")] (Value.vStr "SELECT * FROM t")
    rfl rfl rfl

/-! ## List toolkit lemmas -/

theorem mem_insertDesc {a r : SearchResult} {l : List SearchResult} :
    a ∈ insertDesc r l ↔ a = r ∨ a ∈ l := by
  induction l with
  | nil => simp [insertDesc]
  | cons x xs ih =>
    simp only [insertDesc]
    split
    · simp [List.mem_cons]
    · simp [List.mem_cons, ih]
      tauto

theorem sorted_insertDesc {r : SearchResult} {l : List SearchResult}
    (h : l.Sorted (fun a b => b.score ≤ a.score)) :
    (insertDesc r l).Sorted (fun a b => b.score ≤ a.score) := by
  induction l with
  | nil => simp [insertDesc]
  | cons x xs ih =>
    rw [List.sorted_cons] at h
    obtain ⟨hx, hxs⟩ := h
    simp only [insertDesc]
    split
    · rename_i hlt
      rw [List.sorted_cons]
      refine ⟨?_, ?_⟩
      · intro b hb
        rcases List.mem_cons.mp hb with rfl | hb
        · exact le_of_lt hlt
        · exact le_trans (hx b hb) (le_of_lt hlt)
      · rw [List.sorted_cons]
        exact ⟨hx, hxs⟩
    · rename_i hge
      rw [List.sorted_cons]
      refine ⟨?_, ih hxs⟩
      intro b hb
      rcases mem_insertDesc.mp hb with rfl | hb
      · exact not_lt.mp hge
      · exact hx b hb

theorem sorted_sortByScoreDesc_aux (l acc : List SearchResult)
    (hacc : acc.Sorted (fun a b => b.score ≤ a.score)) :
    (l.foldl (fun acc r => insertDesc r acc) acc).Sorted (fun a b => b.score ≤ a.score) := by
  induction l generalizing acc with
  | nil => exact hacc
  | cons x xs ih => exact ih _ (sorted_insertDesc hacc)

theorem sorted_sortByScoreDesc (l : List SearchResult) :
    (sortByScoreDesc l).Sorted (fun a b => b.score ≤ a.score) :=
  sorted_sortByScoreDesc_aux l [] (by simp)

theorem mem_sortByScoreDesc_aux {a : SearchResult} (l acc : List SearchResult) :
    a ∈ l.foldl (fun acc r => insertDesc r acc) acc ↔ a ∈ acc ∨ a ∈ l := by
  induction l generalizing acc with
  | nil => simp
  | cons x xs ih =>
    rw [List.foldl_cons, ih]
    simp [mem_insertDesc]
    tauto

theorem mem_sortByScoreDesc {a : SearchResult} {l : List SearchResult} :
    a ∈ sortByScoreDesc l ↔ a ∈ l := by
  simp [sortByScoreDesc, mem_sortByScoreDesc_aux]

theorem pyTake_sublist {α : Type} (k : ℤ) (l : List α) : (pyTake k l).Sublist l := by
  unfold pyTake
  split <;> exact List.take_sublist _ _

theorem mem_pyTake {α : Type} {a : α} {k : ℤ} {l : List α} (h : a ∈ pyTake k l) : a ∈ l :=
  (pyTake_sublist k l).subset h

theorem sorted_pyTake {k : ℤ} {l : List SearchResult}
    (h : l.Sorted (fun a b => b.score ≤ a.score)) :
    (pyTake k l).Sorted (fun a b => b.score ≤ a.score) :=
  h.sublist (pyTake_sublist k l)

theorem mem_foldl_append {α β : Type} {a : α} (f : β → List α) (l : List β)
    (acc : List α) :
    a ∈ l.foldl (fun acc t => acc ++ f t) acc ↔ a ∈ acc ∨ ∃ t ∈ l, a ∈ f t := by
  induction l generalizing acc with
  | nil => simp
  | cons x xs ih =>
    rw [List.foldl_cons, ih]
    simp [List.mem_append]
    tauto

/-! ## Word-overlap lemmas -/

theorem interCard_nil_right (a : List String) : interCard a [] = 0 := by
  simp [interCard, List.contains]

theorem interCard_le_length (a b : List String) : interCard a b ≤ a.length :=
  List.length_filter_le _ _

theorem interCard_self (a : List String) : interCard a a = a.length := by
  unfold interCard
  rw [List.filter_eq_self.mpr]
  intro w hw
  simpa [List.contains] using hw

theorem calc_sim_formula (q t : String) (hq : tokenSet q ≠ []) :
    calculate_text_similarity q t
      = (interCard (tokenSet q) (tokenSet t) : ℚ) / ((tokenSet q).length : ℚ) := by
  simp only [calculate_text_similarity]
  have hqe : ¬ q = "" := by
    intro h
    subst h
    exact hq rfl
  by_cases hte : t = ""
  · subst hte
    rw [if_pos (Or.inr rfl)]
    rw [show tokenSet "" = [] from rfl, interCard_nil_right]
    simp
  · rw [if_neg (by tauto), if_neg hq]

theorem calc_sim_nonneg (q t : String) : 0 ≤ calculate_text_similarity q t := by
  simp only [calculate_text_similarity]
  split
  · norm_num
  · split
    · norm_num
    · positivity

theorem calc_sim_le_one (q t : String) : calculate_text_similarity q t ≤ 1 := by
  simp only [calculate_text_similarity]
  split
  · norm_num
  · split
    · norm_num
    · rename_i hq
      rw [div_le_one (by exact_mod_cast List.length_pos.mpr hq)]
      exact_mod_cast interCard_le_length _ _

/-- Every result _search_in_table produces carries the word-overlap score
of its own extracted content against the query text. -/
theorem searchInTable_score (env : Env) (table_name query_text : String)
    (filters : Option Row) (top_k : ℤ) (r : SearchResult)
    (hr : r ∈ searchInTable env table_name query_text filters top_k) :
    r.score = calculate_text_similarity query_text r.content := by
  simp only [searchInTable] at hr
  split at hr
  · simp at hr
  · split at hr
    · simp at hr
    · split at hr
      · simp at hr
      · rcases List.mem_map.mp hr with ⟨row, _, rfl⟩
        rfl

/-! ## Claim C5: keyword word-overlap scoring -/

/-- C5: every row returned by the keyword table search is scored with the
word-overlap ratio (query tokens present in the content token set, divided
by the number of query tokens), and a row whose extracted content equals
the query text exactly scores 1.0. -/
theorem C5_keyword_word_overlap_score (env : Env) (table_name query_text : String)
    (filters : Option Row) (top_k : ℤ) (r : SearchResult)
    (hr : r ∈ searchInTable env table_name query_text filters top_k)
    (hq : tokenSet query_text ≠ []) :
    r.score = (interCard (tokenSet query_text) (tokenSet r.content) : ℚ)
        / ((tokenSet query_text).length : ℚ)
    ∧ (r.content = query_text → r.score = 1) := by
  have h0 := searchInTable_score env table_name query_text filters top_k r hr
  constructor
  · rw [h0, calc_sim_formula _ _ hq]
  · intro hc
    rw [h0, hc, calc_sim_formula _ _ hq, interCard_self, div_self]
    exact_mod_cast List.length_pos.mpr hq |>.ne'

/-- C5 witness: the exact-match round trip scores 1.0. -/
theorem C5_witness :
    kwDemoResult ∈ searchInTable kwDemoEnv "documents" "machine learning" none 10
    ∧ kwDemoResult.score = 1 := by
  have hm : searchInTable kwDemoEnv "documents" "machine learning" none 10
      = [kwDemoResult] := rfl
  have hmem : kwDemoResult ∈ searchInTable kwDemoEnv "documents" "machine learning" none 10 := by
    rw [hm]
    exact List.mem_singleton.mpr rfl
  exact ⟨hmem,
    (C5_keyword_word_overlap_score kwDemoEnv "documents" "machine learning" none 10
      kwDemoResult hmem (by decide)).2 rfl⟩

/-! ## Claim C8: asymmetric user_id filter handling -/

theorem foldl_skip_user_id {β : Type} (g : β → String × Value → β) (f : Row) (b : β) :
    f.foldl (fun acc p => if p.1 == "user_id" then acc else g acc p) b
      = (f.filter (fun p => p.1 != "user_id")).foldl
          (fun acc p => if p.1 == "user_id" then acc else g acc p) b := by
  induction f generalizing b with
  | nil => rfl
  | cons p f ih =>
    rw [List.foldl_cons, List.filter_cons]
    by_cases h : (p.1 == "user_id") = true
    · rw [if_pos h, if_neg (by simp [bne, h] : ¬ (p.1 != "user_id") = true)]
      exact ih b
    · have hb : (p.1 == "user_id") = false := eq_false_of_ne_true h
      rw [if_neg h, if_pos (by simp [bne, hb] : (p.1 != "user_id") = true)]
      rw [List.foldl_cons, if_neg h]
      exact ih (g b p)

/-- C8: keyword search builds its equality predicates and their parameters
from the filters with the user_id key removed, while semantic search hands
the user_id value to the vector backend, whose search turns it into a
user_id equality filter expression. -/
theorem C8_user_id_filter_asymmetry (text_columns : List String) (query_text : String)
    (top_k : ℤ) (f : Row) (q : SearchQuery) (fs : Row) (v : Value)
    (hf : q.filters = some fs) (hv : rowGet fs "user_id" = some v) :
    buildWhereClause text_columns f
      = buildWhereClause text_columns (f.filter (fun p => p.1 != "user_id"))
    ∧ buildParams text_columns query_text f top_k
      = buildParams text_columns query_text (f.filter (fun p => p.1 != "user_id")) top_k
    ∧ semanticUserArg q = some v
    ∧ milvusFilterExpr (some v) none none none = some ("user_id == " ++ v.toStr) := by
  refine ⟨?_, ?_, ?_, ?_⟩
  · simp only [buildWhereClause]
    exact foldl_skip_user_id _ f _
  · simp only [buildParams]
    rw [foldl_skip_user_id (fun acc p => acc ++ [p.2]) f]
  · simp [semanticUserArg, hf, hv]
  · rfl

/-- C8 witness: the asymmetry at a concrete filter dictionary carrying
user_id 7 and one ordinary key. -/
theorem C8_witness :
    buildWhereClause ["content"] [("user_id", Value.vInt 7), ("doc_type", Value.vStr "pdf")]
      = buildWhereClause ["content"]
          (([("user_id", Value.vInt 7), ("doc_type", Value.vStr "pdf")] : Row).filter
            (fun p => p.1 != "user_id"))
    ∧ semanticUserArg
        { query_text := "q",
          filters := some [("user_id", Value.vInt 7), ("doc_type", Value.vStr "pdf")] }
      = some (Value.vInt 7) :=
  ⟨(C8_user_id_filter_asymmetry ["content"] "q" 10
      [("user_id", Value.vInt 7), ("doc_type", Value.vStr "pdf")]
      { query_text := "q",
        filters := some [("user_id", Value.vInt 7), ("doc_type", Value.vStr "pdf")] }
      [("user_id", Value.vInt 7), ("doc_type", Value.vStr "pdf")]
      (Value.vInt 7) rfl rfl).1,
   (C8_user_id_filter_asymmetry ["content"] "q" 10
      [("user_id", Value.vInt 7), ("doc_type", Value.vStr "pdf")]
      { query_text := "q",
        filters := some [("user_id", Value.vInt 7), ("doc_type", Value.vStr "pdf")] }
      [("user_id", Value.vInt 7), ("doc_type", Value.vStr "pdf")]
      (Value.vInt 7) rfl rfl).2.2.1⟩

/-! ## Claim C6: sortedness and score ranges -/

theorem mem_semantic_fold (env : Env) {r : SearchResult} (hits : List VectorHit)
    (acc : List SearchResult)
    (hr : r ∈ hits.foldl (fun acc result =>
        match env.chunkContent result.chunk_uid with
        | none => acc
        | some content =>
          if content = "" then acc else acc ++ [mkSemanticResult result content]) acc) :
    r ∈ acc
    ∨ ∃ h ∈ hits, ∃ c, env.chunkContent h.chunk_uid = some c ∧ r = mkSemanticResult h c := by
  induction hits generalizing acc with
  | nil => exact Or.inl hr
  | cons x xs ih =>
    rw [List.foldl_cons] at hr
    rcases ih _ hr with hacc | ⟨h, hh, c, hc, hrc⟩
    · cases hcx : env.chunkContent x.chunk_uid with
      | none =>
        simp only [hcx] at hacc
        exact Or.inl hacc
      | some c =>
        simp only [hcx] at hacc
        by_cases hce : c = ""
        · rw [if_pos hce] at hacc
          exact Or.inl hacc
        · rw [if_neg hce] at hacc
          rcases List.mem_append.mp hacc with h1 | h2
          · exact Or.inl h1
          · exact Or.inr ⟨x, List.mem_cons_self _ _, c, hcx, List.mem_singleton.mp h2⟩
    · exact Or.inr ⟨h, List.mem_cons_of_mem _ hh, c, hc, hrc⟩

/-- C6 counterexample: with backend distances 3/2 then 1/2, the semantic
result list contains a negative score and is not sorted descending — the
source neither clamps 1 - distance to the unit interval nor sorts the
semantic list. -/
theorem C6_counterexample :
    (∃ r ∈ semantic_search c6Env c6Query, r.score < 0)
    ∧ ¬ (semantic_search c6Env c6Query).Sorted (fun a b => b.score ≤ a.score) := by
  have hs : semantic_search c6Env c6Query
      = [mkSemanticResult c6Hit1 "some stored text",
         mkSemanticResult c6Hit2 "some stored text"] := rfl
  constructor
  · refine ⟨mkSemanticResult c6Hit1 "some stored text", ?_, ?_⟩
    · rw [hs]
      exact List.mem_cons_self _ _
    · show (1 : ℚ) - c6Hit1.distance < 0
      norm_num [c6Hit1]
  · rw [hs]
    intro hsorted
    have h := (List.sorted_cons.mp hsorted).1 _ (List.mem_singleton.mpr rfl)
    simp only [mkSemanticResult, c6Hit1, c6Hit2] at h
    norm_num at h

/-- C6 (amended): the keyword and hybrid result lists are sorted by score
descending, keyword scores lie in the unit interval and custom scores are
exactly 1.0, while semantic results (vector backend available) carry the
unclamped score 1 - distance of their hit, in the backend's hit order. -/
theorem C6_sorting_and_score_ranges (env : Env) (q : SearchQuery) :
    (keyword_search env q).Sorted (fun a b => b.score ≤ a.score)
    ∧ (∀ r ∈ keyword_search env q, 0 ≤ r.score ∧ r.score ≤ 1)
    ∧ (hybrid_search env q).Sorted (fun a b => b.score ≤ a.score)
    ∧ (∀ l, custom_search env q = Except.ok l → ∀ r ∈ l, r.score = 1)
    ∧ (env.milvusAvailable = true →
        ∀ qv hits, env.embed q.query_text = some qv →
          env.vecSearch qv q.top_k (semanticUserArg q) = some hits →
          ∀ r ∈ semantic_search env q, ∃ h ∈ hits, r.score = 1 - h.distance) := by
  refine ⟨?_, ?_, ?_, ?_, ?_⟩
  · exact sorted_pyTake (sorted_sortByScoreDesc _)
  · intro r hr
    have h1 : r ∈ sortByScoreDesc (keywordRawResults env q) := mem_pyTake hr
    have h2 : r ∈ keywordRawResults env q := mem_sortByScoreDesc.mp h1
    simp only [keywordRawResults] at h2
    split at h2
    · simp at h2
    · rcases (mem_foldl_append _ _ _).mp h2 with h3 | ⟨t, _, hrt⟩
      · simp at h3
      · rw [searchInTable_score env t q.query_text q.filters q.top_k r hrt]
        exact ⟨calc_sim_nonneg _ _, calc_sim_le_one _ _⟩
  · exact sorted_pyTake (sorted_sortByScoreDesc _)
  · intro l hl r hrl
    simp only [custom_search] at hl
    split at hl
    · exact absurd hl (by simp)
    · split at hl
      · exact absurd hl (by simp)
      · split at hl
        · obtain rfl : ([] : List SearchResult) = l := by simpa using hl
          simp at hrl
        · rename_i rows _
          obtain rfl : rows.enum.map (fun p => mkCustomResult p.1 p.2) = l := by simpa using hl
          rcases List.mem_map.mp hrl with ⟨p, _, rfl⟩
          rfl
  · intro hm qv hits he hv r hr
    simp only [semantic_search] at hr
    rw [if_neg (by simp [hm])] at hr
    simp only [he, hv] at hr
    rcases mem_semantic_fold env hits [] hr with h0 | ⟨h, hh, c, _, rfl⟩
    · simp at h0
    · exact ⟨h, hh, rfl⟩

/-- C6 witness: the amended theorem's sortedness and semantic-score clauses
at a well-behaved concrete environment. -/
theorem C6_witness :
    (keyword_search c6GoodEnv c6Query).Sorted (fun a b => b.score ≤ a.score)
    ∧ (∀ r ∈ semantic_search c6GoodEnv c6Query, ∃ h ∈ [c6GoodHit], r.score = 1 - h.distance) :=
  ⟨(C6_sorting_and_score_ranges c6GoodEnv c6Query).1,
   (C6_sorting_and_score_ranges c6GoodEnv c6Query).2.2.2.2 rfl [1] [c6GoodHit] rfl rfl⟩

/-! ## Claim C4: hybrid score fusion -/

theorem alLookup_cons_pos {β : Type} (p : String × β) (l : List (String × β))
    (id : String) (h : (p.1 == id) = true) :
    alLookup (p :: l) id = some p.2 := by
  simp [alLookup, h]

theorem alLookup_cons_neg {β : Type} (p : String × β) (l : List (String × β))
    (id : String) (h : (p.1 == id) = false) :
    alLookup (p :: l) id = alLookup l id := by
  simp [alLookup, h]

theorem alLookup_pairMap (g : SearchResult → SearchResult) (S : List SearchResult)
    (id : String) :
    alLookup (S.map (fun s => (s.id, g s))) id = (S.find? (fun r => r.id == id)).map g := by
  induction S with
  | nil => rfl
  | cons s S ih =>
    simp only [List.map_cons]
    cases h : (s.id == id) with
    | true =>
      rw [alLookup_cons_pos (s.id, g s) _ id h]
      have hf : List.find? (fun r => r.id == id) (s :: S) = some s := by
        simp [List.find?_cons, h]
      rw [hf]
      rfl
    | false =>
      rw [alLookup_cons_neg (s.id, g s) _ id h]
      have hf : List.find? (fun r => r.id == id) (s :: S)
          = List.find? (fun r => r.id == id) S := by
        simp [List.find?_cons, h]
      rw [hf]
      exact ih

theorem dictSet_fresh {β : Type} (acc : List (String × β)) (k : String) (v : β)
    (h : acc.any (fun p => p.1 == k) = false) :
    dictSet acc k v = acc ++ [(k, v)] := by
  simp [dictSet, h]

theorem hybrid_sem_fold (S : List SearchResult) (acc : List (String × SearchResult))
    (hS : (S.map (fun r => r.id)).Nodup)
    (hfresh : ∀ r ∈ S, acc.any (fun p => p.1 == r.id) = false) :
    S.foldl (fun acc r => dictSet acc r.id (scaleSemantic r)) acc
      = acc ++ S.map (fun r => (r.id, scaleSemantic r)) := by
  induction S generalizing acc with
  | nil => simp
  | cons s S ih =>
    rw [List.map_cons, List.nodup_cons] at hS
    rw [List.foldl_cons, dictSet_fresh _ _ _ (hfresh s (List.mem_cons_self _ _))]
    rw [ih _ hS.2 ?_]
    · simp
    · intro r hr
      rw [List.any_append]
      rw [hfresh r (List.mem_cons_of_mem _ hr)]
      have hne : (s.id == r.id) = false := by
        rw [beq_eq_false_iff_ne]
        intro e
        exact hS.1 (e ▸ List.mem_map_of_mem _ hr)
      simp [hne]

theorem alLookup_map_update (acc : List (String × SearchResult)) (rid : String)
    (g : SearchResult → SearchResult) (id : String) :
    alLookup (acc.map (fun p => if p.1 == rid then (p.1, g p.2) else p)) id
      = if id = rid then (alLookup acc id).map g else alLookup acc id := by
  induction acc with
  | nil =>
    simp only [List.map_nil]
    split <;> rfl
  | cons q acc ih =>
    simp only [List.map_cons]
    by_cases hq1 : (q.1 == rid) = true
    · rw [if_pos hq1]
      by_cases hqid : (q.1 == id) = true
      · have hir : id = rid := by
          rw [beq_iff_eq] at hq1 hqid
          rw [← hqid, hq1]
        rw [if_pos hir, alLookup_cons_pos q acc id hqid]
        rw [alLookup_cons_pos (q.1, g q.2) _ id hqid]
        rfl
      · have hqf := eq_false_of_ne_true hqid
        rw [alLookup_cons_neg q acc id hqf]
        rw [alLookup_cons_neg (q.1, g q.2) _ id hqf]
        exact ih
    · have hq1f := eq_false_of_ne_true hq1
      rw [if_neg hq1]
      by_cases hqid : (q.1 == id) = true
      · have hir : ¬ id = rid := by
          intro e
          rw [beq_iff_eq] at hqid
          rw [hqid, e] at hq1f
          simp at hq1f
        rw [if_neg hir, alLookup_cons_pos q acc id hqid]
        rw [alLookup_cons_pos q _ id hqid]
      · have hqf := eq_false_of_ne_true hqid
        rw [alLookup_cons_neg q acc id hqf]
        rw [alLookup_cons_neg q _ id hqf]
        exact ih

theorem alLookup_eq_none_of_any_false {β : Type} (l : List (String × β)) (k : String)
    (h : l.any (fun p => p.1 == k) = false) : alLookup l k = none := by
  unfold alLookup
  have hn : l.find? (fun p => p.1 == k) = none := by
    rw [List.find?_eq_none]
    intro p hp hpk
    have hcontra : l.any (fun p => p.1 == k) = true := List.any_eq_true.mpr ⟨p, hp, hpk⟩
    rw [h] at hcontra
    exact Bool.false_ne_true hcontra
  rw [hn]
  rfl

theorem alLookup_hybridKeywordStep (acc : List (String × SearchResult))
    (r : SearchResult) (id : String) :
    alLookup (hybridKeywordStep acc r) id =
      if id = r.id then
        match alLookup acc r.id with
        | some v => some (addKeywordScore r v)
        | none => some (scaleKeyword r)
      else alLookup acc id := by
  unfold hybridKeywordStep
  by_cases hany : acc.any (fun p => p.1 == r.id) = true
  · rw [if_pos hany]
    rw [alLookup_map_update]
    by_cases hid : id = r.id
    · rw [if_pos hid, if_pos hid, hid]
      cases h : alLookup acc r.id with
      | none =>
        exfalso
        rcases List.any_eq_true.mp hany with ⟨p, hp, hpk⟩
        have hfind : acc.find? (fun p => p.1 == r.id) = none := by
          unfold alLookup at h
          exact Option.map_eq_none'.mp h
        exact (List.find?_eq_none.mp hfind p hp) hpk
      | some v => rfl
    · rw [if_neg hid, if_neg hid]
  · rw [if_neg hany]
    have hanyf : acc.any (fun p => p.1 == r.id) = false := eq_false_of_ne_true hany
    have hnone : alLookup acc r.id = none := alLookup_eq_none_of_any_false acc r.id hanyf
    have hfn : acc.find? (fun p => p.1 == r.id) = none := by
      unfold alLookup at hnone
      exact Option.map_eq_none'.mp hnone
    by_cases hid : id = r.id
    · rw [if_pos hid, hnone]
      unfold alLookup
      rw [List.find?_append]
      subst hid
      rw [hfn, Option.none_or]
      have hf : List.find? (fun p => p.1 == r.id) [(r.id, scaleKeyword r)]
          = some (r.id, scaleKeyword r) := by
        simp [List.find?_cons]
      rw [hf]
      rfl
    · rw [if_neg hid]
      unfold alLookup
      rw [List.find?_append]
      have h2 : List.find? (fun p => p.1 == id) [(r.id, scaleKeyword r)] = none := by
        rw [List.find?_eq_none]
        intro p hp
        rcases List.mem_singleton.mp hp with rfl
        simp only [beq_iff_eq]
        exact fun e => hid e.symm
      rw [h2, Option.or_none]

theorem alLookup_hybrid_fold_not_mem (K : List SearchResult)
    (acc : List (String × SearchResult)) (id : String)
    (hid : ∀ k ∈ K, k.id ≠ id) :
    alLookup (K.foldl hybridKeywordStep acc) id = alLookup acc id := by
  induction K generalizing acc with
  | nil => rfl
  | cons k K ih =>
    rw [List.foldl_cons, ih _ (fun k2 h2 => hid k2 (List.mem_cons_of_mem _ h2))]
    rw [alLookup_hybridKeywordStep]
    rw [if_neg (fun e => hid k (List.mem_cons_self _ _) e.symm)]

theorem alLookup_hybrid_fold (K : List SearchResult)
    (acc : List (String × SearchResult)) (id : String)
    (hK : (K.map (fun r => r.id)).Nodup) :
    alLookup (K.foldl hybridKeywordStep acc) id =
      match K.find? (fun r => r.id == id) with
      | some k =>
        match alLookup acc id with
        | some v => some (addKeywordScore k v)
        | none => some (scaleKeyword k)
      | none => alLookup acc id := by
  induction K generalizing acc with
  | nil => rfl
  | cons k K ih =>
    rw [List.map_cons, List.nodup_cons] at hK
    rw [List.foldl_cons]
    by_cases hid : k.id = id
    · have hf : List.find? (fun r => r.id == id) (k :: K) = some k := by
        simp [List.find?_cons, beq_iff_eq.mpr hid]
      rw [hf]
      rw [alLookup_hybrid_fold_not_mem K _ id ?_]
      · rw [alLookup_hybridKeywordStep, if_pos hid.symm, hid]
      · intro r hr e
        exact hK.1 (hid ▸ e ▸ List.mem_map_of_mem _ hr)
    · have hf : List.find? (fun r => r.id == id) (k :: K)
          = List.find? (fun r => r.id == id) K := by
        simp [List.find?_cons, beq_eq_false_iff_ne.mpr hid]
      rw [hf]
      rw [ih _ hK.2]
      rw [alLookup_hybridKeywordStep, if_neg (fun e => hid e.symm)]

theorem alLookup_hybridCombine (S K : List SearchResult) (id : String)
    (hS : (S.map (fun r => r.id)).Nodup) (hK : (K.map (fun r => r.id)).Nodup) :
    alLookup (hybridCombine S K) id = hybridSpecEntry S K id := by
  unfold hybridCombine
  rw [hybrid_sem_fold S [] hS (by simp)]
  rw [alLookup_hybrid_fold K _ id hK]
  rw [List.nil_append, alLookup_pairMap]
  unfold hybridSpecEntry
  cases hs : S.find? (fun r => r.id == id) <;>
    cases hk : K.find? (fun r => r.id == id) <;> rfl

theorem find?_eq_of_mem_nodup {l : List SearchResult} {r : SearchResult}
    (hl : (l.map (fun x => x.id)).Nodup) (hr : r ∈ l) :
    l.find? (fun x => x.id == r.id) = some r := by
  induction l with
  | nil => simp at hr
  | cons x xs ih =>
    rw [List.map_cons, List.nodup_cons] at hl
    rcases List.mem_cons.mp hr with rfl | hr2
    · simp [List.find?_cons]
    · have hne : (x.id == r.id) = false := by
        rw [beq_eq_false_iff_ne]
        intro e
        exact hl.1 (e ▸ List.mem_map_of_mem _ hr2)
      have hf : List.find? (fun x => x.id == r.id) (x :: xs)
          = List.find? (fun x => x.id == r.id) xs := by
        simp [List.find?_cons, hne]
      rw [hf]
      exact ih hl.2 hr2

theorem alLookup_mem_values {β : Type} {l : List (String × β)} {k : String} {v : β}
    (h : alLookup l k = some v) : v ∈ l.map (fun p => p.2) := by
  unfold alLookup at h
  cases hf : l.find? (fun p => p.1 == k) with
  | none =>
    rw [hf, Option.map_none'] at h
    exact absurd h (by simp)
  | some p =>
    rw [hf, Option.map_some'] at h
    have hv : p.2 = v := Option.some.inj h
    exact hv ▸ List.mem_map_of_mem _ (List.mem_of_find?_eq_some hf)

/-- C4: under distinct result ids within each strategy's list, the hybrid
merge stores for an id present in both lists the score
0.6·semantic + 0.4·keyword, for a semantic-only id 0.6·semantic, for a
keyword-only id 0.4·keyword; and the returned list is the merged values
sorted by score descending and truncated to top_k. -/
theorem C4_hybrid_score_fusion (env : Env) (q : SearchQuery)
    (hS : ((semantic_search env q).map (fun r => r.id)).Nodup)
    (hK : ((keyword_search env q).map (fun r => r.id)).Nodup) :
    (∀ id, alLookup (hybridCombine (semantic_search env q) (keyword_search env q)) id
        = hybridSpecEntry (semantic_search env q) (keyword_search env q) id)
    ∧ (∀ s k, s ∈ semantic_search env q → k ∈ keyword_search env q → k.id = s.id →
        ∃ r ∈ (hybridCombine (semantic_search env q) (keyword_search env q)).map
            (fun p => p.2),
          r.id = s.id ∧ r.score = s.score * (6 / 10) + k.score * (4 / 10))
    ∧ (∀ s ∈ semantic_search env q, (∀ k ∈ keyword_search env q, k.id ≠ s.id) →
        ∃ r ∈ (hybridCombine (semantic_search env q) (keyword_search env q)).map
            (fun p => p.2),
          r.id = s.id ∧ r.score = s.score * (6 / 10))
    ∧ (∀ k ∈ keyword_search env q, (∀ s ∈ semantic_search env q, s.id ≠ k.id) →
        ∃ r ∈ (hybridCombine (semantic_search env q) (keyword_search env q)).map
            (fun p => p.2),
          r.id = k.id ∧ r.score = k.score * (4 / 10))
    ∧ hybrid_search env q
        = pyTake q.top_k (sortByScoreDesc
            ((hybridCombine (semantic_search env q) (keyword_search env q)).map
              (fun p => p.2))) := by
  have hmain := fun id =>
    alLookup_hybridCombine (semantic_search env q) (keyword_search env q) id hS hK
  refine ⟨hmain, ?_, ?_, ?_, rfl⟩
  · intro s k hsm hkm hid
    have h := hmain s.id
    have hks : (keyword_search env q).find? (fun r => r.id == s.id) = some k := by
      rw [← hid]
      exact find?_eq_of_mem_nodup hK hkm
    rw [hybridSpecEntry, find?_eq_of_mem_nodup hS hsm, hks] at h
    exact ⟨_, alLookup_mem_values h, rfl, rfl⟩
  · intro s hsm hnone
    have h := hmain s.id
    rw [hybridSpecEntry, find?_eq_of_mem_nodup hS hsm,
      List.find?_eq_none.mpr (fun k hk => by
        simp only [beq_iff_eq]
        exact hnone k hk)] at h
    exact ⟨_, alLookup_mem_values h, rfl, rfl⟩
  · intro k hkm hnone
    have h := hmain k.id
    rw [hybridSpecEntry,
      List.find?_eq_none.mpr (fun s hs => by
        simp only [beq_iff_eq]
        exact hnone s hs),
      find?_eq_of_mem_nodup hK hkm] at h
    exact ⟨_, alLookup_mem_values h, rfl, rfl⟩

/-- C4 witness: the fused both-sides score at the concrete fixture in which
semantic and keyword search each return one result with id 1. -/
theorem C4_witness :
    ∃ r ∈ (hybridCombine (semantic_search c4Env c4Query) (keyword_search c4Env c4Query)).map
        (fun p => p.2),
      r.id = c4SemResult.id
      ∧ r.score = c4SemResult.score * (6 / 10) + c4KwResult.score * (4 / 10) := by
  have hsem : semantic_search c4Env c4Query = [c4SemResult] := rfl
  have hkw : keyword_search c4Env c4Query = [c4KwResult] := rfl
  exact (C4_hybrid_score_fusion c4Env c4Query (by decide) (by decide)).2.1
    c4SemResult c4KwResult
    (by rw [hsem]; exact List.mem_singleton.mpr rfl)
    (by rw [hkw]; exact List.mem_singleton.mpr rfl)
    rfl



end KnowledgeRAG
